import Mathlib

/-!
# Verification of the ssh2docker per-connection session engine

A shallow embedding of `client.go` (package `ssh2docker`): the client/registry
construction (`NewClient`), the connection-level request drain
(`HandleRequests`), and the channel-request dispatch loop
(`HandleChannelRequests`) with its `shell` / `exec` / `pty-req` /
`window-change` / `env` branches, the docker join-vs-create launch decision,
and the `sync.Once`-guarded teardown.

Go byte payloads are embedded as `List Nat` (each entry a byte value); Go's
panicking index/slice operations are embedded as `Option`-valued accessors
where `none` means an out-of-range panic; Go byte arithmetic on indices is
taken modulo 256.  Go maps (the environment, the server's client-config
registry) are embedded as association lists whose update prepends, so lookup
sees the latest write, matching map semantics.
-/

namespace Ssh2Docker

/-- A binary request payload: a list of byte values. -/
abbrev Bytes := List Nat

/-! ## Association lists (embedding of Go maps) -/

/-- Lookup in a Go-map embedding: the first (most recent) binding wins. -/
def assocGet {α : Type} (m : List (String × α)) (k : String) : Option α :=
  (m.find? (fun p => p.1 == k)).map (·.2)

/-- Map update `m[k] = v`: prepend, shadowing any older binding. -/
def assocSet {α : Type} (m : List (String × α)) (k : String) (v : α) :
    List (String × α) :=
  (k, v) :: m

/-- Map membership test `_, found := m[k]`. -/
def assocHas {α : Type} (m : List (String × α)) (k : String) : Bool :=
  (assocGet m k).isSome

/-! ## Go byte-slice primitives -/

/-- Embedding of `p[i]` on a `[]byte`: `none` is an index-out-of-range panic. -/
def byteAt (p : Bytes) (i : Nat) : Option Nat :=
  (p.get? i).map (· % 256)

/-- Embedding of `p[a:b]` on a `[]byte` (capacity = length): `none` is a
slice-bounds-out-of-range panic. -/
def goSlice (p : Bytes) (a b : Nat) : Option Bytes :=
  if a ≤ b ∧ b ≤ p.length then some ((p.drop a).take (b - a)) else none

/-- Embedding of `p[a:]` on a `[]byte`: `none` is a slice-bounds-out-of-range panic. -/
def goSliceFrom (p : Bytes) (a : Nat) : Option Bytes :=
  if a ≤ p.length then some (p.drop a) else none

/-- Embedding of `string(b)` on a `[]byte`: the bytes taken verbatim as characters. -/
def bytesToString (b : Bytes) : String :=
  String.mk (b.map (fun n => Char.ofNat (n % 256)))

/-! ## Data model: `ClientConfig`, `Server`, session state -/

/-- Embedding of `ClientConfig`.  `Command` is `Option (List String)` because
the Go field is a slice and the code distinguishes a `nil` slice (`none`) from
an empty non-nil slice (`some []`) via `c.Config.Command != nil`. -/
structure ClientConfig where
  ImageName : String
  RemoteUser : String
  Env : List (String × String)
  Command : Option (List String)
  DockerRunArgs : List String
  User : String
  AuthenticationMethod : String
  AuthenticationComment : String
  AuthenticationAttempts : Nat
  EntryPoint : String
  IsLocal : Bool
  deriving Repr, DecidableEq

/-- The `Server` fields read by `client.go`. -/
structure Server where
  DefaultShell : String
  DockerRunArgs : List String
  LocalUser : String
  NoJoin : Bool
  Banner : String
  deriving Repr, DecidableEq

/-- Embedding of a `Client` as far as the claims need it: its registry key and
its configuration record. -/
structure Client where
  ClientID : String
  Config : ClientConfig
  deriving Repr, DecidableEq

/-- Embedding of `strings.Replace(s, "_", "/", -1)`: for a single-character pattern and
single-character replacement, replacing every occurrence is exactly a
character-wise map (no occurrence can span characters), embedded as such so
it evaluates on concrete strings. -/
def replaceUnderscores (s : String) : String :=
  String.mk (s.data.map (fun c => if c = '_' then '/' else c))

/-- The default `ClientConfig` literal built in `NewClient` (before the
`IsLocal` adjustment).  `Command := some []` embeds `make([]string, 0)`,
a non-nil empty slice. -/
def seedConfig (user : String) : ClientConfig :=
  { ImageName := replaceUnderscores user
    RemoteUser := "anonymous"
    AuthenticationMethod := "noauth"
    AuthenticationComment := ""
    AuthenticationAttempts := 0
    Env := []
    Command := some []
    DockerRunArgs := []
    User := ""
    EntryPoint := ""
    IsLocal := false }

/-- Modelled from the spec: `envhelper.Environment.ApplyDefaults` lives in
`pkg/envhelper`, which is not under `src/`; the spec says the environment is
"merged with environment defaults".  Each default binding is added only when
its key is absent. -/
def applyDefaults (defaults env : List (String × String)) :
    List (String × String) :=
  defaults.foldl
    (fun acc kv => if assocHas acc kv.1 then acc else acc ++ [kv]) env

/-- Embedding of `NewClient`: seed a default config, adjust `IsLocal` when the
server has a `LocalUser`, register the config only when the identity is not
yet present, then point the client at the registered record and apply the
environment defaults to it (a mutation of the shared record, embedded as a
write-back into the registry). -/
def newClient (srv : Server) (envDefaults : List (String × String))
    (remoteAddr user : String) (configs : List (String × ClientConfig)) :
    Client × List (String × ClientConfig) :=
  let fresh := seedConfig user
  let fresh :=
    if srv.LocalUser ≠ "" then
      { fresh with IsLocal := fresh.ImageName == srv.LocalUser }
    else fresh
  let configs1 :=
    if assocHas configs remoteAddr then configs
    else assocSet configs remoteAddr fresh
  let stored := (assocGet configs1 remoteAddr).getD fresh
  let final := { stored with Env := applyDefaults envDefaults stored.Env }
  ({ ClientID := remoteAddr, Config := final },
   assocSet configs1 remoteAddr final)

/-! ## Request decoding (`pty-req`, `env`, geometry) -/

/-- Big-endian 32-bit read: the first four bytes of `b`. -/
def beUint32 (b : Bytes) : Nat :=
  (b.take 4).foldl (fun acc x => acc * 256 + x % 256) 0

/-- Modelled from the spec: `ttyhelper.ParseDims` lives in `pkg/ttyhelper`,
which is not under `src/`; the spec says the packed geometry is columns,
rows, pixel-width, pixel-height, "each a 4-byte big-endian unsigned integer",
and a buffer too short for the two fields read is an out-of-range panic. -/
def parseDims (b : Bytes) : Option (Nat × Nat) :=
  if 8 ≤ b.length then some (beUint32 b, beUint32 (b.drop 4)) else none

/-- The slice reads of the `pty-req` branch:
`termLen := p[3]`, `p[4 : termLen+4]` (term name), `p[termLen+4:]` (geometry).
Index arithmetic on the byte `termLen` wraps modulo 256. -/
def ptyReqDecode (p : Bytes) : Option (Bytes × Bytes) := do
  let termLen ← byteAt p 3
  let term ← goSlice p 4 ((termLen + 4) % 256)
  let rest ← goSliceFrom p ((termLen + 4) % 256)
  pure (term, rest)

/-- The slice reads of the `env` branch:
`keyLen := p[3]`, `key := p[4 : keyLen+4]`, `valueLen := p[keyLen+7]`,
`value := p[keyLen+8 : keyLen+8+valueLen]`, byte arithmetic modulo 256. -/
def envDecode (p : Bytes) : Option (Bytes × Bytes) := do
  let keyLen ← byteAt p 3
  let key ← goSlice p 4 ((keyLen + 4) % 256)
  let valueLen ← byteAt p ((keyLen + 7) % 256)
  let value ← goSlice p ((keyLen + 8) % 256) ((keyLen + 8 + valueLen) % 256)
  pure (key, value)

/-! ## The docker launch decision of the `shell` branch -/

/-- Embedding of `strings.TrimSpace`: drop the white-space characters of `unicode.IsSpace`
(space, tab, newline, vertical tab, form feed, carriage return) from both
ends of the string. -/
def goTrimSpace (s : String) : String :=
  let ws := fun c : Char =>
    c = ' ' || c = '\t' || c = '\n' || c = Char.ofNat 11 || c = Char.ofNat 12
      || c = '\r'
  String.mk (((s.data.dropWhile ws).reverse.dropWhile ws).reverse)

/-- The `docker ps` query arguments used to look for an existing container. -/
def dockerPsArgs (cfg : ClientConfig) : List String :=
  ["ps", "--filter=label=ssh2docker",
   "--filter=label=image=" ++ cfg.ImageName,
   "--filter=label=user=" ++ cfg.RemoteUser,
   "--quiet", "--no-trunc"]

/-- The `docker run` argument list of the create branch. -/
def createArgs (srv : Server) (cfg : ClientConfig) : List String :=
  let args := ["run"]
  let args := args ++
    (if 0 < cfg.DockerRunArgs.length then cfg.DockerRunArgs
     else srv.DockerRunArgs)
  let args := args ++
    ["--label=ssh2docker", "--label=user=" ++ cfg.RemoteUser,
     "--label=image=" ++ cfg.ImageName]
  let args := args ++ (if cfg.User ≠ "" then ["-u", cfg.User] else [])
  let args := args ++
    (if cfg.EntryPoint ≠ "" then ["--entrypoint", cfg.EntryPoint] else [])
  let args := args ++ [cfg.ImageName]
  args ++
    (match cfg.Command with
     | some cmdList => cmdList
     | none => [srv.DefaultShell])

/-- The command chosen by the `shell` branch before `cmd.Start`:
local sessions get `/bin/bash`; otherwise the `docker ps` result (`psResult`:
`none` embeds a failed query, which makes the branch `continue`, embedded as
no command) decides join (`docker exec`) versus create (`docker run`).
With `NoJoin` the query is skipped and `existingContainer` stays empty. -/
def shellLaunchCmd (srv : Server) (cfg : ClientConfig)
    (psResult : Option String) : Option (String × List String) :=
  if cfg.IsLocal then some ("/bin/bash", [])
  else if srv.NoJoin then some ("docker", createArgs srv cfg)
  else
    match psResult with
    | none => none
    | some buf =>
      let existingContainer := goTrimSpace buf
      if existingContainer ≠ "" then
        some ("docker",
          ["exec", "-it", existingContainer,
           if cfg.EntryPoint ≠ "" then cfg.EntryPoint else srv.DefaultShell])
      else some ("docker", createArgs srv cfg)

/-- Banner normalization: strip `\r`, turn `\n` into `\n\r`, and the final
`fmt.Fprintf(channel, "%s\n\r", banner)` framing. -/
def bannerText (banner : String) : String :=
  ((banner.replace "\r" "").replace "\n" "\n\r") ++ "\n\r"

/-- The fixed warning written by the `exec` branch (`fmt.Fprintln` appends a
newline). -/
def execWarning : String :=
  "⚠️  ssh2docker: exec is not yet implemented. https://github.com/moul/ssh2docker/issues/51.\n"

/-! ## The channel request loop -/

/-- One SSH request as the loop sees it. -/
structure Request where
  type : String
  wantReply : Bool
  payload : Bytes
  deriving Repr, DecidableEq

/-- The observable actions a single loop iteration can perform, in order. -/
inductive Effect where
  | writeChannel (s : String)
  | sleepSeconds (n : Nat)
  | reply (ok : Bool)
  | startProcess (prog : String) (args : List String)
  deriving Repr, DecidableEq

/-- Per-channel session state touched by the loop: the shared config (its
environment), the pty geometry, and the started backing process if any. -/
structure SessionState where
  Config : ClientConfig
  PtySize : Nat × Nat
  ProcessStarted : Option (String × List String)
  deriving Repr, DecidableEq

/-- Outcome of one loop iteration: a new state plus the ordered effects, or a
Go panic from an out-of-range index/slice. -/
inductive StepOutcome where
  | normal (st : SessionState) (effects : List Effect)
  | panicked
  deriving Repr, DecidableEq

/-- The effects of an outcome (a panic emits none). -/
def StepOutcome.effects : StepOutcome → List Effect
  | .normal _ fx => fx
  | .panicked => []

/-- Environment inputs of one iteration that come from outside the loop:
the `docker ps` result and whether `cmd.Start` succeeds. -/
structure ShellOracle where
  psResult : Option String
  startOk : Bool
  deriving Repr, DecidableEq

/-- One iteration of the `HandleChannelRequests` loop body, faithful to the
`switch req.Type` dispatch: `ok` starts false, `continue` paths skip the
reply, and the reply `req.Reply(ok, nil)` is sent only when `WantReply`. -/
def handleRequest (srv : Server) (oracle : ShellOracle) (st : SessionState)
    (req : Request) : StepOutcome :=
  if req.type = "shell" then
    if req.payload.length ≠ 0 then
      .normal st (if req.wantReply then [Effect.reply false] else [])
    else
      match shellLaunchCmd srv st.Config oracle.psResult with
      | none => .normal st []
      | some (prog, args) =>
        let bannerFx : List Effect :=
          if srv.Banner ≠ "" then [Effect.writeChannel (bannerText srv.Banner)]
          else []
        if oracle.startOk then
          .normal { st with ProcessStarted := some (prog, args) }
            (bannerFx ++ [Effect.startProcess prog args] ++
             (if req.wantReply then [Effect.reply true] else []))
        else
          .normal st bannerFx
  else if req.type = "exec" then
    .normal st
      ([Effect.writeChannel execWarning, Effect.sleepSeconds 3] ++
       (if req.wantReply then [Effect.reply false] else []))
  else if req.type = "pty-req" then
    match ptyReqDecode req.payload with
    | none => .panicked
    | some (term, rest) =>
      match parseDims rest with
      | none => .panicked
      | some (w, h) =>
        .normal
          { st with
            Config :=
              { st.Config with
                Env := assocSet st.Config.Env "TERM" (bytesToString term) }
            PtySize := (w, h) }
          (if req.wantReply then [Effect.reply true] else [])
  else if req.type = "window-change" then
    match parseDims req.payload with
    | none => .panicked
    | some (w, h) => .normal { st with PtySize := (w, h) } []
  else if req.type = "env" then
    match envDecode req.payload with
    | none => .panicked
    | some (key, value) =>
      .normal
        { st with
          Config :=
            { st.Config with
              Env := assocSet st.Config.Env (bytesToString key)
                       (bytesToString value) } }
        (if req.wantReply then [Effect.reply false] else [])
  else
    .normal st (if req.wantReply then [Effect.reply false] else [])

/-! ## The connection-level request drain (`HandleRequests`) -/

/-- Embedding of `HandleRequests`: every request that wants a reply is
answered `false`; nothing else happens and no state is touched. -/
def handleRequests (st : SessionState) (reqs : List Request) :
    SessionState × List Effect :=
  (st,
   reqs.foldl
     (fun fx r => fx ++ (if r.wantReply then [Effect.reply false] else []))
     [])

/-! ## Teardown (`sync.Once` over three racing completion events) -/

/-- The three completion events that race to trigger teardown. -/
inductive TriggerEvent where
  | remoteCopyDone
  | localCopyDone
  | processExit
  deriving Repr, DecidableEq

/-- State of the `sync.Once` guard plus instrumentation of its body
(`channel.Close()` and the disconnect log): how many times the body ran and
whether the channel is closed. -/
structure OnceState where
  done : Bool
  closeCount : Nat
  channelClosed : Bool
  deriving Repr, DecidableEq

/-- The initial guard state, before any event fires. -/
def OnceState.init : OnceState :=
  { done := false, closeCount := 0, channelClosed := false }

/-- Embedding of `once.Do(close)`: run the close-and-log body only if it never ran.
`sync.Once` serializes concurrent `Do` calls, so any interleaving of the
three tasks is some sequence of these calls. -/
def onceDo (st : OnceState) : OnceState :=
  if st.done then st
  else { done := true, closeCount := st.closeCount + 1, channelClosed := true }

/-- Run the teardown guard over the completion events in their arrival
order: each of the three tasks calls `once.Do(close)` when it finishes. -/
def runTeardown (events : List TriggerEvent) : OnceState :=
  events.foldl (fun st _ => onceDo st) OnceState.init

/-! ## Shared concrete instances and helper lemmas -/

/-- A plain server used to instantiate theorems on concrete inputs. -/
def defSrv : Server :=
  { DefaultShell := "/bin/sh", DockerRunArgs := [], LocalUser := "",
    NoJoin := false, Banner := "" }

/-- A benign oracle: the `docker ps` query returns no container and
`cmd.Start` succeeds. -/
def defOracle : ShellOracle := { psResult := some "", startOk := true }

/-- A fresh session state over the default config for image `busybox`. -/
def initSt : SessionState :=
  { Config := seedConfig "busybox", PtySize := (0, 0), ProcessStarted := none }

theorem assocGet_assocSet_self {α : Type} (m : List (String × α)) (k : String)
    (v : α) : assocGet (assocSet m k v) k = some v := by
  simp [assocGet, assocSet, List.find?]

theorem foldl_onceDo_done (l : List TriggerEvent) (st : OnceState)
    (h : st.done = true) : l.foldl (fun s _ => onceDo s) st = st := by
  induction l with
  | nil => rfl
  | cons x xs ih => simpa [onceDo, h] using ih

theorem handleRequests_foldl (reqs : List Request) (acc : List Effect) :
    reqs.foldl
      (fun fx r => fx ++ (if r.wantReply then [Effect.reply false] else []))
      acc =
      acc ++ (reqs.filter (·.wantReply)).map (fun _ => Effect.reply false) := by
  induction reqs generalizing acc with
  | nil => simp
  | cons r rs ih => cases hw : r.wantReply <;> simp [List.filter_cons, hw, ih]

/-! ## Claim theorems -/

/-- C1: once the backing process is started, whichever of the three
completion events (remote-copy done, local-copy done, process exit) arrives
first closes the channel, and the `sync.Once`-guarded close-and-log body runs
exactly once over any arrival order of any number of the events. -/
theorem teardown_close_once (events : List TriggerEvent) :
    (runTeardown events).closeCount = (if events.isEmpty then 0 else 1) ∧
    (runTeardown events).channelClosed = !events.isEmpty := by
  cases events with
  | nil => simp [runTeardown, OnceState.init]
  | cons e rest =>
    have h1 : onceDo OnceState.init =
        { done := true, closeCount := 1, channelClosed := true } := rfl
    simp [runTeardown, List.foldl_cons, h1,
      foldl_onceDo_done rest
        { done := true, closeCount := 1, channelClosed := true } rfl]

/-- C8: an `exec` request is declined (reply `false`); the fixed warning
naming the unimplemented feature is written to the channel first, then a
fixed 3-second delay passes, and only then is the `false` reply sent. -/
theorem exec_declined_after_warning (srv : Server) (oracle : ShellOracle)
    (st : SessionState) (p : Bytes) :
    handleRequest srv oracle st ⟨"exec", true, p⟩ =
      .normal st [Effect.writeChannel execWarning, Effect.sleepSeconds 3,
        Effect.reply false] := by
  simp [handleRequest]

/-- C10: the connection-level request drain replies `false` to exactly the
requests that want a reply, regardless of type and payload, and never touches
session state. -/
theorem conn_requests_all_declined (st : SessionState) (reqs : List Request) :
    (handleRequests st reqs).1 = st ∧
    (handleRequests st reqs).2 =
      (reqs.filter (·.wantReply)).map (fun _ => Effect.reply false) := by
  exact ⟨rfl, handleRequests_foldl reqs []⟩

/-- C4 counterexample: the default seeded config has an empty but non-nil
command slice, and for it the create-mode argument list ends with the image
name — the server's default shell is *not* appended, contrary to the claim
that an empty command list means "use default shell". -/
theorem create_empty_command_no_shell :
    (seedConfig "busybox").Command = some [] ∧
    createArgs defSrv (seedConfig "busybox") =
      ["run", "--label=ssh2docker", "--label=user=anonymous",
       "--label=image=busybox", "busybox"] ∧
    (createArgs defSrv (seedConfig "busybox")).getLast? ≠
      some defSrv.DefaultShell := by
  refine ⟨rfl, by decide, by decide⟩

/-- C4 (amended): the trailing command appended after the image name is the
session's command slice whenever that slice is set (non-nil) — even when it
is empty, in which case nothing trails the image name — and is the server's
default shell name exactly when the command slice is nil. -/
theorem create_trailing_command (srv : Server) (cfg : ClientConfig) :
    createArgs srv cfg =
      createArgs srv { cfg with Command := some [] } ++
        (match cfg.Command with
         | some cmdList => cmdList
         | none => [srv.DefaultShell]) := by
  cases h : cfg.Command <;> simp [createArgs, h]

/-- C5 (code behavior at the failing input): a `pty-req` and an `env` request
with an empty payload — too short to contain the length byte the code reads
at index 3 — drive the loop body into an out-of-range access (a Go panic)
instead of a declined decode failure. -/
theorem short_payload_panics :
    handleRequest defSrv defOracle initSt ⟨"pty-req", true, []⟩ =
        .panicked ∧
    handleRequest defSrv defOracle initSt ⟨"env", true, []⟩ = .panicked := by
  exact ⟨rfl, rfl⟩

/-- C2: a `shell` request is accepted (reply `true`) only if its payload is
empty and the backing-process start succeeds; and every `shell` request with
a non-empty payload is declined, starts no process, and leaves the session
state unchanged. -/
theorem shell_accept_gate (srv : Server) (oracle : ShellOracle)
    (st : SessionState) (req : Request) (ht : req.type = "shell") :
    (Effect.reply true ∈ (handleRequest srv oracle st req).effects →
      req.payload.length = 0 ∧ oracle.startOk = true) ∧
    (req.payload.length ≠ 0 →
      handleRequest srv oracle st req =
        .normal st (if req.wantReply then [Effect.reply false] else [])) := by
  obtain ⟨t, w, p⟩ := req
  simp only [Request.type] at ht
  subst ht
  constructor
  · intro hmem
    by_cases hp : p.length = 0
    · refine ⟨hp, ?_⟩
      rcases hcmd : shellLaunchCmd srv st.Config oracle.psResult with
        _ | ⟨prog, args⟩
      · exfalso
        simp [handleRequest, hp, hcmd, StepOutcome.effects] at hmem
      · cases hs : oracle.startOk
        · exfalso
          simp [handleRequest, hp, hcmd, hs, StepOutcome.effects] at hmem
        · rfl
    · exfalso
      simp [handleRequest, hp, StepOutcome.effects] at hmem
  · intro hp
    simp [handleRequest, hp]

/-- C2 witness: a concrete `shell` request carrying the 1-byte payload `[1]`
is declined with the session state unchanged. -/
theorem shell_accept_gate_witness :
    handleRequest defSrv defOracle initSt ⟨"shell", true, [1]⟩ =
      .normal initSt [Effect.reply false] := by
  have h :=
    (shell_accept_gate defSrv defOracle initSt ⟨"shell", true, [1]⟩ rfl).2
      (by decide)
  simpa using h

theorem beUint32_take (b : Bytes) : beUint32 (b.take 4) = beUint32 b := by
  simp [beUint32, List.take_take]

/-- C3: for a non-local `shell` request with reuse enabled, a non-empty
(trimmed) provisioning-query result makes the launcher attach with
`docker exec -it <id> <entry>` — the session entrypoint, else the server's
default shell — and none of the create arguments; an empty result makes it
create with `docker run`, then the session's run arguments when non-empty
else the server defaults, then the marker, remote-user and image labels, the
optional `-u` override, the optional `--entrypoint` override, the image name,
and the trailing command. -/
theorem shell_join_or_create (srv : Server) (cfg : ClientConfig)
    (buf : String) (hl : cfg.IsLocal = false) (hj : srv.NoJoin = false) :
    (goTrimSpace buf ≠ "" →
      shellLaunchCmd srv cfg (some buf) =
        some ("docker",
          ["exec", "-it", goTrimSpace buf,
           if cfg.EntryPoint ≠ "" then cfg.EntryPoint
           else srv.DefaultShell])) ∧
    (goTrimSpace buf = "" →
      shellLaunchCmd srv cfg (some buf) =
        some ("docker",
          "run" ::
            ((if 0 < cfg.DockerRunArgs.length then cfg.DockerRunArgs
              else srv.DockerRunArgs) ++
             ["--label=ssh2docker", "--label=user=" ++ cfg.RemoteUser,
              "--label=image=" ++ cfg.ImageName] ++
             (if cfg.User ≠ "" then ["-u", cfg.User] else []) ++
             (if cfg.EntryPoint ≠ "" then ["--entrypoint", cfg.EntryPoint]
              else []) ++
             [cfg.ImageName] ++
             (match cfg.Command with
              | some cmdList => cmdList
              | none => [srv.DefaultShell])))) := by
  constructor <;> intro hbuf <;>
    simp [shellLaunchCmd, createArgs, hl, hj, hbuf]

/-- C3 witness: over the default server and seeded config, a query result
`"abc123\n"` yields the join command and an empty query result yields the
create command. -/
theorem shell_join_or_create_witness :
    shellLaunchCmd defSrv (seedConfig "busybox") (some "abc123\n") =
      some ("docker", ["exec", "-it", "abc123", "/bin/sh"]) ∧
    shellLaunchCmd defSrv (seedConfig "busybox") (some "") =
      some ("docker",
        ["run", "--label=ssh2docker", "--label=user=anonymous",
         "--label=image=busybox", "busybox"]) := by
  have h1 :=
    (shell_join_or_create defSrv (seedConfig "busybox") "abc123\n" rfl rfl).1
      (by decide)
  have h2 :=
    (shell_join_or_create defSrv (seedConfig "busybox") "" rfl rfl).2
      (by decide)
  rw [h1, h2]
  exact ⟨by decide, by decide⟩

/-- C6: for every valid `pty-req` payload, `TERM` is set to exactly the
term-name substring at bytes `4 .. 4+n` (where `n` is the length byte at
index 3), and the terminal is resized to the big-endian values of the two
4-byte fields that follow the term name. -/
theorem pty_req_sets_term_and_size (srv : Server) (oracle : ShellOracle)
    (st : SessionState) (w : Bool) (p : Bytes) (n : Nat)
    (h3 : byteAt p 3 = some n) (hn : n + 4 ≤ 255)
    (hlen : n + 12 ≤ p.length) :
    handleRequest srv oracle st ⟨"pty-req", w, p⟩ =
      .normal
        { st with
          Config :=
            { st.Config with
              Env := assocSet st.Config.Env "TERM"
                       (bytesToString ((p.drop 4).take n)) }
          PtySize := (beUint32 ((p.drop (n + 4)).take 4),
                      beUint32 ((p.drop (n + 8)).take 4)) }
        (if w then [Effect.reply true] else []) := by
  have hmod : (n + 4) % 256 = n + 4 := Nat.mod_eq_of_lt (by omega)
  have hslice : goSlice p 4 (n + 4) = some ((p.drop 4).take n) := by
    unfold goSlice
    rw [if_pos (by omega : 4 ≤ n + 4 ∧ n + 4 ≤ p.length)]
    simp
  have hfrom : goSliceFrom p (n + 4) = some (p.drop (n + 4)) := by
    unfold goSliceFrom
    rw [if_pos (by omega : n + 4 ≤ p.length)]
  have hdec : ptyReqDecode p = some ((p.drop 4).take n, p.drop (n + 4)) := by
    simp [ptyReqDecode, h3, hmod, hslice, hfrom]
  have hdims : parseDims (p.drop (n + 4)) =
      some (beUint32 (p.drop (n + 4)), beUint32 ((p.drop (n + 4)).drop 4)) := by
    unfold parseDims
    rw [if_pos (by simp [List.length_drop]; omega : 8 ≤ (p.drop (n + 4)).length)]
  have hdd : (p.drop (n + 4)).drop 4 = p.drop (n + 8) := by
    rw [List.drop_drop]
  simp [handleRequest, hdec, hdims, hdd, beUint32_take]

/-- C6 witness: term `"xterm"` with 80×24 geometry. -/
theorem pty_req_witness :
    handleRequest defSrv defOracle initSt
        ⟨"pty-req", true,
         [0, 0, 0, 5, 120, 116, 101, 114, 109, 0, 0, 0, 80, 0, 0, 0, 24]⟩ =
      .normal
        { initSt with
          Config := { initSt.Config with
            Env := assocSet initSt.Config.Env "TERM" "xterm" }
          PtySize := (80, 24) }
        [Effect.reply true] := by
  have h := pty_req_sets_term_and_size defSrv defOracle initSt true
    [0, 0, 0, 5, 120, 116, 101, 114, 109, 0, 0, 0, 80, 0, 0, 0, 24] 5
    (by decide) (by decide) (by decide)
  rw [h]
  decide

/-- C7: for every valid `env` payload, the key is exactly the `k` bytes
declared by the length byte at index 3 and the value is exactly the `v` bytes
declared by the length byte three ignored bytes after the key; and a later
binding of the same key wins over an earlier one in the environment. -/
theorem env_sets_key_value (srv : Server) (oracle : ShellOracle)
    (st : SessionState) (w : Bool) (p : Bytes) (k v : Nat)
    (h3 : byteAt p 3 = some k) (hv : byteAt p (k + 7) = some v)
    (hov : k + 8 + v ≤ 255) (hlen : k + 8 + v ≤ p.length) :
    (handleRequest srv oracle st ⟨"env", w, p⟩ =
      .normal
        { st with
          Config := { st.Config with
            Env := assocSet st.Config.Env
                     (bytesToString ((p.drop 4).take k))
                     (bytesToString ((p.drop (k + 8)).take v)) } }
        (if w then [Effect.reply false] else [])) ∧
    (∀ (env : List (String × String)) (key v1 v2 : String),
      assocGet (assocSet (assocSet env key v1) key v2) key = some v2) := by
  have hmod4 : (k + 4) % 256 = k + 4 := Nat.mod_eq_of_lt (by omega)
  have hmod7 : (k + 7) % 256 = k + 7 := Nat.mod_eq_of_lt (by omega)
  have hmod8 : (k + 8) % 256 = k + 8 := Nat.mod_eq_of_lt (by omega)
  have hmod8v : (k + 8 + v) % 256 = k + 8 + v := Nat.mod_eq_of_lt (by omega)
  have hkey : goSlice p 4 (k + 4) = some ((p.drop 4).take k) := by
    unfold goSlice
    rw [if_pos (by omega : 4 ≤ k + 4 ∧ k + 4 ≤ p.length)]
    simp
  have hval : goSlice p (k + 8) (k + 8 + v) =
      some ((p.drop (k + 8)).take v) := by
    unfold goSlice
    rw [if_pos (by omega : k + 8 ≤ k + 8 + v ∧ k + 8 + v ≤ p.length)]
    congr 2
    omega
  have hdec : envDecode p =
      some ((p.drop 4).take k, (p.drop (k + 8)).take v) := by
    simp [envDecode, h3, hv, hmod4, hmod7, hmod8, hmod8v, hkey, hval]
  refine ⟨by simp [handleRequest, hdec], ?_⟩
  intro env key v1 v2
  exact assocGet_assocSet_self _ _ _

/-- C7 witness: key `"FOO"`, value `"bar"`, and last-write-wins on `"FOO"`. -/
theorem env_witness :
    (handleRequest defSrv defOracle initSt
        ⟨"env", true, [0, 0, 0, 3, 70, 79, 79, 9, 9, 9, 3, 98, 97, 114]⟩ =
      .normal
        { initSt with
          Config := { initSt.Config with
            Env := assocSet initSt.Config.Env "FOO" "bar" } }
        [Effect.reply false]) ∧
    assocGet
        (assocSet (assocSet initSt.Config.Env "FOO" "first") "FOO" "second")
        "FOO" = some "second" := by
  have h := env_sets_key_value defSrv defOracle initSt true
    [0, 0, 0, 3, 70, 79, 79, 9, 9, 9, 3, 98, 97, 114] 3 3
    (by decide) (by decide) (by decide) (by decide)
  refine ⟨?_, h.2 initSt.Config.Env "FOO" "first" "second"⟩
  rw [h.1]
  decide

/-- C9: the first construction for a connection identity registers a config
seeded with the documented defaults (image name from the target with
underscores turned into slashes, remote user `anonymous`, empty environment
merged with the environment defaults, empty command); every later
construction for the same identity hands back the registered record (with
the environment defaults reapplied) instead of a fresh one, so mutations of
that shared record are what every session under the identity sees. -/
theorem registry_seed_and_share (srv : Server)
    (defaults : List (String × String)) (addr user user2 : String)
    (configs : List (String × ClientConfig)) :
    (assocHas configs addr = false →
      ((newClient srv defaults addr user configs).1.Config.ImageName =
          replaceUnderscores user ∧
       (newClient srv defaults addr user configs).1.Config.RemoteUser =
          "anonymous" ∧
       (newClient srv defaults addr user configs).1.Config.Env =
          applyDefaults defaults [] ∧
       (newClient srv defaults addr user configs).1.Config.Command =
          some [] ∧
       assocGet (newClient srv defaults addr user configs).2 addr =
          some (newClient srv defaults addr user configs).1.Config)) ∧
    (∀ cfg : ClientConfig, assocGet configs addr = some cfg →
      (newClient srv defaults addr user2 configs).1.Config =
          { cfg with Env := applyDefaults defaults cfg.Env } ∧
      assocGet (newClient srv defaults addr user2 configs).2 addr =
          some { cfg with Env := applyDefaults defaults cfg.Env }) := by
  constructor
  · intro h
    by_cases hL : srv.LocalUser = "" <;>
      simp [newClient, h, hL, assocGet_assocSet_self, seedConfig]
  · intro cfg hget
    have hhas : assocHas configs addr = true := by
      simp [assocHas, hget]
    simp [newClient, hhas, hget, assocGet_assocSet_self]

/-- A registered config after an external hook mutated its image name, used
to instantiate the registry-sharing theorem. -/
def hookedCfg : ClientConfig :=
  { seedConfig "other" with ImageName := "hooked/image" }

/-- C9 witness: the identity `10.0.0.1:4242` first seeds `alpine/test` from
user `alpine_test`; after an external mutation of the registered record, a
second construction under a different user name returns the mutated record,
not a fresh default. -/
theorem registry_witness :
    (newClient defSrv [("HOME", "/root")] "10.0.0.1:4242" "alpine_test"
        []).1.Config.ImageName = "alpine/test" ∧
    (newClient defSrv [("HOME", "/root")] "10.0.0.1:4242" "other"
        [("10.0.0.1:4242", hookedCfg)]).1.Config.ImageName =
      "hooked/image" := by
  have h1 := (registry_seed_and_share defSrv [("HOME", "/root")]
    "10.0.0.1:4242" "alpine_test" "other" []).1 (by decide)
  have h2 := (registry_seed_and_share defSrv [("HOME", "/root")]
    "10.0.0.1:4242" "alpine_test" "other"
    [("10.0.0.1:4242", hookedCfg)]).2 hookedCfg (by decide)
  constructor
  · rw [h1.1]
    decide
  · rw [h2.1]
    rfl

end Ssh2Docker
